import Mathlib

/-!
Shallow embedding of three Python modules of `rubin_sim`:

* `rubin_sim/maf/maf_contrib/selfcal_uniformity_metric.py`
  (the helper `_match` and the class `PhotometricSelfCalUniformityMetric`),
* `rubin_sim/maf/runComparison/radarPlot.py`
  (`radar_factory` and `RadarAxes._close_line`),
* `tests/scheduler/test_skymaps.py` (the three test methods of `TestSkyArea`).

Numpy float arrays are modelled as lists of rationals, integer id arrays as
lists of integers, structured tables as association lists from column name to
column, and the observable side effects of `run` (printing, writing the FITS
map, the `IPython.embed()` call) as an explicit event trace.  Angles produced
by `radar_factory` are represented in units of pi, so the source value
`2*np.pi*i/num_vars + np.pi/2 (mod 2*np.pi)` is the rational
`2*i/num_vars + 1/2 (mod 2)` here.
-/

/-! ## radarPlot.py -/

/-- Python/numpy floored modulo on rationals: `x % y = x - y * floor (x / y)`.
For `y > 0` the result lies in `[0, y)`, as for numpy `%`. -/
def qmod (x y : ℚ) : ℚ := x - y * ⌊x / y⌋

/-- The angle array of `radar_factory`, in units of pi:
`theta = np.linspace(0, 2*np.pi, num_vars, endpoint=False)`, then
`theta += np.pi/2`, then `theta = theta % (2.*np.pi)`. -/
def radarThetaPi (num_vars : Nat) : List ℚ :=
  (List.range num_vars).map (fun i : Nat => qmod (2 * (i : ℚ) / num_vars + 1 / 2) 2)

/-- `radar_factory(num_vars, frame)`: computes the angle array, then raises
`ValueError('unknown value for frame: %s' % frame)` when `frame` is not a key
of `patch_dict` (whose keys are `polygon` and `circle`); otherwise registers
the projection and returns the angles. -/
def radar_factory (num_vars : Nat) (frame : String) : Except String (List ℚ) :=
  let theta := radarThetaPi num_vars
  if frame = "polygon" ∨ frame = "circle" then Except.ok theta
  else Except.error ("unknown value for frame: " ++ frame)

/-- `RadarAxes._close_line`: if `x[0] != x[-1]`, append the first point to the
line data; the matplotlib line data is the pair of coordinate arrays. -/
def closeLine (xy : List ℚ × List ℚ) : List ℚ × List ℚ :=
  let x := xy.1
  let y := xy.2
  if x.headD 0 ≠ x.getLastD 0 then (x ++ [x.headD 0], y ++ [y.headD 0]) else (x, y)

/-! ## selfcal_uniformity_metric.py: `_match` -/

/-- Insert index `i` into an index list sorted by the values of `arr`
(helper for `argsort`). -/
def argsortInsert (arr : List Int) (i : Nat) : List Nat → List Nat
  | [] => [i]
  | j :: rest =>
      if arr.getD i 0 < arr.getD j 0 then i :: j :: rest
      else j :: argsortInsert arr i rest

/-- `np.argsort(arr)`: indices that sort `arr`. -/
def argsort (arr : List Int) : List Nat :=
  (List.range arr.length).foldr (argsortInsert arr) []

/-- `np.searchsorted(sorted, v)` with the default `side='left'`: the leftmost
insertion index of `v` into the sorted list, i.e. the length of the prefix of
values strictly below `v`. -/
def searchsortedLeft (sorted : List Int) (v : Int) : Nat :=
  (sorted.takeWhile (fun a => a < v)).length

/-- `arr.max()` of a (nonempty) numpy array. -/
def listMax (arr : List Int) : Int := arr.foldl max (arr.headD 0)

/-- The array `sub1` of `_match` after the clamping step:
`sub1 = np.searchsorted(arr1, arr2, sorter=st1)`, then if
`arr2.max() > arr1.max()` the entries equal to `arr1.size` are set to
`arr1.size - 1`. -/
def matchClampedSub1 (arr1 arr2 : List Int) : List Nat :=
  let st1 := argsort arr1
  let sorted1 := st1.map (fun i => arr1.getD i 0)
  let sub1 := arr2.map (fun v => searchsortedLeft sorted1 v)
  if listMax arr2 > listMax arr1 then
    sub1.map (fun s => if s = arr1.length then arr1.length - 1 else s)
  else sub1

/-- Entry `j` of the elementwise comparison `arr1[st1[sub1]] == arr2`. -/
def matchEq (arr1 arr2 : List Int) (j : Nat) : Bool :=
  arr1.getD ((argsort arr1).getD ((matchClampedSub1 arr1 arr2).getD j 0) 0) 0 =
    arr2.getD j 0

/-- `sub2, = np.where(arr1[st1[sub1]] == arr2)`: the positions where the
comparison holds. -/
def matchSub2 (arr1 arr2 : List Int) : List Nat :=
  (List.range arr2.length).filter (matchEq arr1 arr2)

/-- `_match(arr1, arr2)`:
`st1 = np.argsort(arr1)`; `sub1 = np.searchsorted(arr1, arr2, sorter=st1)`;
clamp `sub1 == arr1.size` down to `arr1.size - 1` when
`arr2.max() > arr1.max()`; `sub2, = np.where(arr1[st1[sub1]] == arr2)`;
return `(st1[sub1[sub2]], sub2)`. -/
def matchArrays (arr1 arr2 : List Int) : List Nat × List Nat :=
  ((matchSub2 arr1 arr2).map
      (fun j => (argsort arr1).getD ((matchClampedSub1 arr1 arr2).getD j 0) 0),
   matchSub2 arr1 arr2)

/-! ## selfcal_uniformity_metric.py: `PhotometricSelfCalUniformityMetric` -/

/-- Observable side effects of `PhotometricSelfCalUniformityMetric.run`:
`print(...)` calls, `hp.write_map(fname, resid_map)`, and `IPython.embed()`. -/
inductive RunEvent
  | printMsg (s : String)
  | writeMap (fname : String)
  | embedIPython
  deriving DecidableEq, Repr

/-- Results of the external library calls inside `run` that the statistics
section consumes: `residSeen` is `resid_map[ipring]` (the healbinned median
residual at each seen pixel, from `generate_catalog`, `LsqrSolver`, `healbin`
and `hp.UNSEEN` masking), `highGlat` is the per-seen-pixel astropy mask
`np.abs(coords.galactic.b.value) > highglat_cut`, and `madNormal` is scipy's
`median_abs_deviation(..., scale="normal")`. -/
structure RunExternal where
  residSeen : List ℚ
  highGlat : List Bool
  madNormal : List ℚ → ℚ

/-- Constructor parameters of `PhotometricSelfCalUniformityMetric` used by
`run`. -/
structure MetricParams where
  outlier_nsig : ℚ
  run_name : String
  write_map : Bool

/-- Numpy fancy indexing `vals[mask]` by a boolean mask
(`resid_map[ipring[high_glat]]`). -/
def maskList (vals : List ℚ) (m : List Bool) : List ℚ :=
  ((vals.zip m).filter (fun p => p.2)).map (fun p => p.1)

/-- The statistics, result-dictionary and side-effect part of
`PhotometricSelfCalUniformityMetric.run` (lines 123-165 of the source),
with the external library results supplied by `ext` and the filesystem state
by `fileExists` (`os.path.isfile`).  Returns the result dictionary and the
trace of observable effects in program order. -/
def runMetric (p : MetricParams) (fileExists : String → Bool) (ext : RunExternal)
    (filter_name : String) : List (String × ℚ) × List RunEvent :=
  let residSeen := ext.residSeen
  let scatter_full := ext.madNormal residSeen
  let outlier_frac_full : ℚ :=
    ((residSeen.filter (fun r => |r| > p.outlier_nsig * scatter_full)).length : ℚ) /
      (residSeen.length : ℚ)
  let residSeenHigh := maskList residSeen ext.highGlat
  let scatter_highglat := ext.madNormal residSeenHigh
  let outlier_frac_highglat : ℚ :=
    ((residSeenHigh.filter (fun r => |r| > p.outlier_nsig * scatter_highglat)).length : ℚ) /
      (residSeen.length : ℚ)
  let scatter_full := scatter_full * 1000
  let scatter_highglat := scatter_highglat * 1000
  let result := [("scatter_full", scatter_full),
                 ("scatter_highglat", scatter_highglat),
                 ("outlier_frac_full", outlier_frac_full),
                 ("outlier_frac_highglat", outlier_frac_highglat)]
  let fname := "monster_stars_" ++ filter_name ++ "_" ++ p.run_name ++ ".fits"
  let writeEvents :=
    if p.write_map then
      if fileExists fname then
        [RunEvent.printMsg ("Not overwriting existing map of name " ++ fname)]
      else
        [RunEvent.printMsg ("Writing map " ++ fname), RunEvent.writeMap fname]
    else []
  (result, writeEvents ++ [RunEvent.embedIPython])

/-- `reduce_scatter_full(metric_value)`: `metric_value["scatter_full"]`
(dictionary access, `none` standing for Python's `KeyError`). -/
def reduce_scatter_full (metric_value : List (String × ℚ)) : Option ℚ :=
  metric_value.lookup "scatter_full"

/-- `reduce_scatter_highglat(metric_value)`: `metric_value["scatter_highglat"]`. -/
def reduce_scatter_highglat (metric_value : List (String × ℚ)) : Option ℚ :=
  metric_value.lookup "scatter_highglat"

/-- `reduce_outlier_frac_full(metric_value)`: `metric_value["outlier_frac_full"]`. -/
def reduce_outlier_frac_full (metric_value : List (String × ℚ)) : Option ℚ :=
  metric_value.lookup "outlier_frac_full"

/-- `reduce_outlier_frac_highglat(metric_value)`:
`metric_value["outlier_frac_highglat"]`. -/
def reduce_outlier_frac_highglat (metric_value : List (String × ℚ)) : Option ℚ :=
  metric_value.lookup "outlier_frac_highglat"

/-- The catalog path of `__init__`:
`os.path.join(get_data_dir(), "maf", "monster_stars_uniformity_i15-18_sampled.parquet")`. -/
def catalogFilename (data_dir : String) : String :=
  data_dir ++ "/maf/" ++ "monster_stars_uniformity_i15-18_sampled.parquet"

/-- An astropy `Table` as an association list from column name to column. -/
abbrev TableT := List (String × List ℚ)

/-- Column read `t[name]` (`none` stands for astropy's `KeyError`,
defaulted to the empty column). -/
def getColumn (t : TableT) (name : String) : List ℚ :=
  (t.lookup name).getD []

/-- Column write `t[name] = col`: replaces the column when the name exists,
appends a new column otherwise. -/
def setColumn (t : TableT) (name : String) (col : List ℚ) : TableT :=
  if (t.map (fun p => p.1)).contains name then
    t.map (fun p => if p.1 = name then (name, col) else p)
  else t ++ [(name, col)]

/-- The table transform of `__init__` applied to the catalog just read:
`if "dec" in self.stars.dtype.names: self.stars["decl"] = self.stars["dec"]`,
performed before `self.stars = self.stars.as_array()`. -/
def initStars (stars : TableT) : TableT :=
  if (stars.map (fun p => p.1)).contains "dec" then
    setColumn stars "decl" (getColumn stars "dec")
  else stars

/-! ## tests/scheduler/test_skymaps.py -/

/-- Python `set(a) == set(b)` on string collections (the
`set(np.unique(labels)) == set(expected_labels)` assertion). -/
def stringSetEq (a b : List String) : Bool :=
  a.all (fun s => b.contains s) && b.all (fun s => a.contains s)

/-- The second assertion of each test:
`lowdust = np.where(labels == "lowdust")` and
`np.all(footprints["r"][lowdust] == 1)`. -/
def lowdustRatioCheck (fpR : List ℚ) (labels : List String) : Bool :=
  (List.range labels.length).all
    (fun i => if labels.getD i "" = "lowdust" then fpR.getD i 0 = 1 else true)

/-- `TestSkyArea.test_skyareagenerator` on the `return_maps()` output of
`SkyAreaGenerator(nside=32)`: asserts the unique-label set equals the
expected set and that the r-band footprint is 1 on every lowdust pixel. -/
def test_skyareagenerator (footprints : String → List ℚ) (labels : List String) : Bool :=
  stringSetEq labels
      ["", "LMC_SMC", "bulge", "dusty_plane", "lowdust", "nes", "scp", "virgo"]
    && lowdustRatioCheck (footprints "r") labels

/-- `TestSkyArea.test_skyareageneratorgalplane` on the `return_maps()` output
of `SkyAreaGeneratorGalplane(nside=32)`. -/
def test_skyareageneratorgalplane (footprints : String → List ℚ) (labels : List String) : Bool :=
  stringSetEq labels
      ["", "LMC_SMC", "bulgy", "dusty_plane", "lowdust", "nes", "scp", "virgo"]
    && lowdustRatioCheck (footprints "r") labels

/-- `TestSkyArea.test_euclidoverlapfootprint` on the `return_maps()` output of
`EuclidOverlapFootprint(nside=32)`. -/
def test_euclidoverlapfootprint (footprints : String → List ℚ) (labels : List String) : Bool :=
  stringSetEq labels
      ["", "LMC_SMC", "bulgy", "dusty_plane", "lowdust", "nes", "scp", "virgo",
       "euclid_overlap"]
    && lowdustRatioCheck (footprints "r") labels



/-! ## Theorems -/

/-- Helper: Python `%` by 2 is nonnegative. -/
theorem qmod_two_nonneg (x : ℚ) : 0 ≤ qmod x 2 := by
  unfold qmod
  have h : (⌊x / 2⌋ : ℚ) ≤ x / 2 := Int.floor_le (x / 2)
  linarith

/-- Helper: Python `%` by 2 is below 2. -/
theorem qmod_two_lt (x : ℚ) : qmod x 2 < 2 := by
  unfold qmod
  have h : x / 2 < ⌊x / 2⌋ + 1 := Int.lt_floor_add_one (x / 2)
  linarith

/-- C1: `run` writes the sky map file `monster_stars_{filter}_{run_name}.fits`
exactly when `write_map` is true and no file of that name exists; an existing
file is never overwritten and with `write_map` false nothing is written. -/
theorem run_writes_map_iff (p : MetricParams) (fileExists : String → Bool)
    (ext : RunExternal) (filter_name f : String) :
    RunEvent.writeMap f ∈ (runMetric p fileExists ext filter_name).2 ↔
      (f = "monster_stars_" ++ filter_name ++ "_" ++ p.run_name ++ ".fits" ∧
       p.write_map = true ∧
       fileExists ("monster_stars_" ++ filter_name ++ "_" ++ p.run_name ++ ".fits")
         = false) := by
  cases hw : p.write_map <;>
    cases hf : fileExists ("monster_stars_" ++ filter_name ++ "_" ++ p.run_name ++ ".fits") <;>
      simp [runMetric, hw, hf]

/-- C4: every run of `run` performs the `IPython.embed()` call, as the last
effect after the result dictionary is computed and before it is returned. -/
theorem run_calls_ipython_embed (p : MetricParams) (fileExists : String → Bool)
    (ext : RunExternal) (filter_name : String) :
    ∃ pre, (runMetric p fileExists ext filter_name).2 =
      pre ++ [RunEvent.embedIPython] :=
  ⟨_, rfl⟩

/-- C3: the result dictionary of `run` has exactly the keys `scatter_full`,
`scatter_highglat`, `outlier_frac_full` and `outlier_frac_highglat`; the two
scatter entries are the median-absolute-deviation scatters multiplied by
1000 (mmag); and each `reduce_X` method returns exactly the `X` entry. -/
theorem run_result_dict_and_reduces (p : MetricParams) (fileExists : String → Bool)
    (ext : RunExternal) (filter_name : String) :
    ((runMetric p fileExists ext filter_name).1.map (fun e => e.1) =
        ["scatter_full", "scatter_highglat", "outlier_frac_full",
         "outlier_frac_highglat"]) ∧
    reduce_scatter_full (runMetric p fileExists ext filter_name).1 =
      some (ext.madNormal ext.residSeen * 1000) ∧
    reduce_scatter_highglat (runMetric p fileExists ext filter_name).1 =
      some (ext.madNormal (maskList ext.residSeen ext.highGlat) * 1000) ∧
    reduce_outlier_frac_full (runMetric p fileExists ext filter_name).1 =
      some (((ext.residSeen.filter
          (fun r => |r| > p.outlier_nsig * ext.madNormal ext.residSeen)).length : ℚ) /
        (ext.residSeen.length : ℚ)) ∧
    reduce_outlier_frac_highglat (runMetric p fileExists ext filter_name).1 =
      some ((((maskList ext.residSeen ext.highGlat).filter
          (fun r => |r| > p.outlier_nsig *
            ext.madNormal (maskList ext.residSeen ext.highGlat))).length : ℚ) /
        (ext.residSeen.length : ℚ)) :=
  ⟨rfl, rfl, rfl, rfl, rfl⟩

/-- C2 counterexample: `radar_factory` itself constructs and raises
`ValueError('unknown value for frame: square')` on the input
`frame = "square"`, so not every failure comes from an underlying library. -/
theorem radar_factory_raises_own_error :
    radar_factory 3 "square" =
      Except.error ("unknown value for frame: square") := rfl

/-- C2 amended: the only error this fragment raises of its own is
`radar_factory`'s `ValueError` about an unknown `frame`, raised exactly when
`frame` is neither `polygon` nor `circle`; on those two frames no error is
raised by this code. -/
theorem radar_factory_error_iff (num_vars : Nat) (frame : String) :
    (∃ e, radar_factory num_vars frame = Except.error e) ↔
      (frame ≠ "polygon" ∧ frame ≠ "circle") := by
  by_cases h : frame = "polygon" ∨ frame = "circle" <;>
    simp [radar_factory, h]
  · rcases h with h | h <;> simp [h]
  · push_neg at h
    exact h

/-- C10: for `num_vars ≥ 1` the angle array of `radar_factory` (represented
in units of pi) has exactly `num_vars` entries, its `i`-th entry is
`(1/2 + 2*i/num_vars) mod 2` — i.e. `(pi/2 + 2*pi*i/num_vars) mod 2*pi` —
each entry lies in `[0, 2)` (i.e. `[0, 2*pi)`), and the first entry is `1/2`
(i.e. `pi/2`, the top of the chart). -/
theorem radar_factory_angles (num_vars : Nat) (h : 1 ≤ num_vars) :
    (radarThetaPi num_vars).length = num_vars ∧
    (∀ i, i < num_vars →
      (radarThetaPi num_vars).getD i 0 = qmod (1 / 2 + 2 * i / num_vars) 2 ∧
      0 ≤ (radarThetaPi num_vars).getD i 0 ∧
      (radarThetaPi num_vars).getD i 0 < 2) ∧
    (radarThetaPi num_vars).getD 0 0 = 1 / 2 := by
  have hget : ∀ i, i < num_vars →
      (radarThetaPi num_vars).getD i 0 = qmod (2 * i / num_vars + 1 / 2) 2 := by
    intro i hi
    rw [radarThetaPi, List.getD_eq_getElem?_getD, List.getElem?_map,
      List.getElem?_range hi]
    rfl
  refine ⟨by rw [radarThetaPi, List.length_map, List.length_range], fun i hi => ?_, ?_⟩
  · refine ⟨?_, ?_, ?_⟩
    · rw [hget i hi]; ring_nf
    · rw [hget i hi]; exact qmod_two_nonneg _
    · rw [hget i hi]; exact qmod_two_lt _
  · rw [hget 0 h]
    norm_num [qmod]

/-- C10 witness: the theorem instantiated at `num_vars = 4`. -/
theorem radar_factory_angles_witness :
    (radarThetaPi 4).length = 4 ∧
    (∀ i, i < 4 →
      (radarThetaPi 4).getD i 0 = qmod (1 / 2 + 2 * i / 4) 2 ∧
      0 ≤ (radarThetaPi 4).getD i 0 ∧
      (radarThetaPi 4).getD i 0 < 2) ∧
    (radarThetaPi 4).getD 0 0 = 1 / 2 :=
  radar_factory_angles 4 (by norm_num)

/-- Helper: looking up a key after replacing its column finds the new
column. -/
theorem lookup_replace_eq (t : List (String × List ℚ)) (name : String) (col : List ℚ)
    (h : name ∈ t.map (fun p => p.1)) :
    (t.map (fun p => if p.1 = name then (name, col) else p)).lookup name = some col := by
  induction t with
  | nil => simp at h
  | cons p t ih =>
      obtain ⟨k, v⟩ := p
      by_cases hp : k = name
      · have hred : List.map (fun p => if p.1 = name then (name, col) else p) ((k, v) :: t) =
            (name, col) :: List.map (fun p => if p.1 = name then (name, col) else p) t := by
          rw [List.map_cons]
          congr 1
          exact if_pos hp
        rw [hred]
        simp [List.lookup]
      · have hmem : name ∈ t.map (fun q => q.1) := by
          simp only [List.map_cons, List.mem_cons] at h
          rcases h with h | h
          · exact absurd h.symm hp
          · exact h
        have hred : List.map (fun p => if p.1 = name then (name, col) else p) ((k, v) :: t) =
            (k, v) :: List.map (fun p => if p.1 = name then (name, col) else p) t := by
          rw [List.map_cons]
          congr 1
          exact if_neg hp
        rw [hred, List.lookup, beq_eq_false_iff_ne.mpr (fun hh => hp hh.symm)]
        exact ih hmem

/-- Helper: looking up a key absent from the table after appending a column
of that name finds the appended column. -/
theorem lookup_append_new (t : List (String × List ℚ)) (name : String) (col : List ℚ)
    (h : ¬ name ∈ t.map (fun p => p.1)) :
    (t ++ [(name, col)]).lookup name = some col := by
  induction t with
  | nil => simp [List.lookup]
  | cons p t ih =>
      obtain ⟨k, v⟩ := p
      simp only [List.map_cons, List.mem_cons, not_or] at h
      rw [List.cons_append, List.lookup, beq_eq_false_iff_ne.mpr h.1]
      exact ih h.2

/-- Helper: a column write is read back by a read of the same name. -/
theorem getColumn_setColumn (t : TableT) (name : String) (col : List ℚ) :
    getColumn (setColumn t name col) name = col := by
  unfold getColumn setColumn
  by_cases h : (t.map (fun p => p.1)).contains name = true
  · rw [if_pos h, lookup_replace_eq t name col (by simpa using h)]
    rfl
  · rw [if_neg h, lookup_append_new t name col (by simpa using h)]
    rfl

/-- C6: the constructor reads the packaged catalog
`monster_stars_uniformity_i15-18_sampled.parquet` from the `maf` subdirectory
of the data directory, and when the catalog has a `dec` column the table it
keeps carries a `decl` column equal to it. -/
theorem init_reads_catalog_and_copies_dec (data_dir : String) (stars : TableT)
    (h : (stars.map (fun p => p.1)).contains "dec" = true) :
    catalogFilename data_dir =
      data_dir ++ "/maf/monster_stars_uniformity_i15-18_sampled.parquet" ∧
    getColumn (initStars stars) "decl" = getColumn stars "dec" := by
  constructor
  · rw [catalogFilename, String.append_assoc]
    congr 1
  · rw [initStars, if_pos h]
    exact getColumn_setColumn stars "decl" (getColumn stars "dec")

/-- C6 witness: the theorem at a concrete data directory and a two-column
catalog containing `dec`. -/
theorem init_reads_catalog_and_copies_dec_witness :
    ((([("id", [1]), ("dec", [5])] : TableT).map (fun p => p.1)).contains "dec"
        = true) ∧
    (catalogFilename "/data" =
      "/data" ++ "/maf/monster_stars_uniformity_i15-18_sampled.parquet" ∧
     getColumn (initStars [("id", [1]), ("dec", [5])]) "decl" =
       getColumn [("id", [1]), ("dec", [5])] "dec") :=
  ⟨by decide, init_reads_catalog_and_copies_dec "/data"
    [("id", [1]), ("dec", [5])] (by decide)⟩

/-- Helper: the head of an append with a nonempty left part. -/
theorem headD_append_of_ne_nil (x l : List ℚ) (d : ℚ) (h : x ≠ []) :
    (x ++ l).headD d = x.headD d := by
  cases x <;> simp_all

/-- Helper: `_close_line` is the identity on a line whose first and last
x-values coincide. -/
theorem closeLine_eq_of_headD_eq_getLastD (xy : List ℚ × List ℚ)
    (h : xy.1.headD 0 = xy.1.getLastD 0) : closeLine xy = xy := by
  show (if xy.1.headD 0 ≠ xy.1.getLastD 0 then
      (xy.1 ++ [xy.1.headD 0], xy.2 ++ [xy.2.headD 0]) else (xy.1, xy.2)) = xy
  rw [if_neg (fun hc => hc h)]

/-- C9 counterexample: on the line `x = [1, 1]`, `y = [0, 2]` (nonempty data,
equal first and last x but different first and last y) `_close_line` changes
nothing, and the resulting line's first and last data points differ — one
application does not make the first and last data points equal. -/
theorem close_line_leaves_line_with_unequal_endpoints :
    closeLine ([1, 1], [0, 2]) = ([1, 1], [0, 2]) ∧
    ¬ (((closeLine ([1, 1], [0, 2])).1.headD 0,
          (closeLine ([1, 1], [0, 2])).2.headD 0) =
        ((closeLine ([1, 1], [0, 2])).1.getLastD 0,
          (closeLine ([1, 1], [0, 2])).2.getLastD 0)) := by
  decide

/-- C9 amended: on every line with nonempty data, one application of
`_close_line` makes the first and last x-values equal (not necessarily the
full data points, since only x is compared); a second application leaves the
data unchanged, and a line whose first and last x-values already coincide is
left unchanged. -/
theorem close_line_idempotent (x y : List ℚ) (hx : x ≠ []) (hy : y ≠ []) :
    (closeLine (x, y)).1.headD 0 = (closeLine (x, y)).1.getLastD 0 ∧
    closeLine (closeLine (x, y)) = closeLine (x, y) ∧
    (x.headD 0 = x.getLastD 0 → closeLine (x, y) = (x, y)) := by
  have h1 : (closeLine (x, y)).1.headD 0 = (closeLine (x, y)).1.getLastD 0 := by
    by_cases h : x.headD 0 = x.getLastD 0
    · rw [closeLine_eq_of_headD_eq_getLastD (x, y) h]
      exact h
    · unfold closeLine
      rw [if_pos h]
      show (x ++ [x.headD 0]).headD 0 = (x ++ [x.headD 0]).getLastD 0
      rw [headD_append_of_ne_nil x _ 0 hx]
      simp
  exact ⟨h1, closeLine_eq_of_headD_eq_getLastD _ h1,
    fun h => closeLine_eq_of_headD_eq_getLastD (x, y) h⟩

/-- C9 witness: the amended theorem at the open line `x = [1, 2]`,
`y = [3, 4]`. -/
theorem close_line_idempotent_witness :
    (([1, 2] : List ℚ) ≠ [] ∧ ([3, 4] : List ℚ) ≠ []) ∧
    ((closeLine ([1, 2], [3, 4])).1.headD 0 =
        (closeLine ([1, 2], [3, 4])).1.getLastD 0 ∧
      closeLine (closeLine ([1, 2], [3, 4])) = closeLine ([1, 2], [3, 4]) ∧
      (([1, 2] : List ℚ).headD 0 = ([1, 2] : List ℚ).getLastD 0 →
        closeLine ([1, 2], [3, 4]) = ([1, 2], [3, 4]))) :=
  ⟨⟨by simp, by simp⟩, close_line_idempotent [1, 2] [3, 4] (by simp) (by simp)⟩

/-- C8: every index pair returned by `_match` points at equal elements of the
two input arrays: `arr1[sub1[i]] == arr2[sub2[i]]` for every position `i`. -/
theorem match_pairs_point_at_equal_elements (arr1 arr2 : List Int)
    (h1 : arr1 ≠ []) (h2 : arr2 ≠ [])
    (i : Nat) (hi : i < (matchArrays arr1 arr2).2.length) :
    arr1.getD ((matchArrays arr1 arr2).1.getD i 0) 0 =
      arr2.getD ((matchArrays arr1 arr2).2.getD i 0) 0 := by
  have hi2 : i < (matchSub2 arr1 arr2).length := hi
  have hgetj : (matchArrays arr1 arr2).2.getD i 0 = (matchSub2 arr1 arr2)[i] := by
    show (matchSub2 arr1 arr2).getD i 0 = _
    simp [List.getD_eq_getElem?_getD, List.getElem?_eq_getElem hi2]
  have hget1 : (matchArrays arr1 arr2).1.getD i 0 =
      (argsort arr1).getD
        ((matchClampedSub1 arr1 arr2).getD ((matchSub2 arr1 arr2)[i]) 0) 0 := by
    show ((matchSub2 arr1 arr2).map _).getD i 0 = _
    simp [List.getD_eq_getElem?_getD, List.getElem?_map,
      List.getElem?_eq_getElem hi2]
  have hmem : (matchSub2 arr1 arr2)[i] ∈ matchSub2 arr1 arr2 :=
    List.getElem_mem hi2
  have hpred : matchEq arr1 arr2 ((matchSub2 arr1 arr2)[i]) = true := by
    have hmem2 : (matchSub2 arr1 arr2)[i] ∈
        List.filter (matchEq arr1 arr2) (List.range arr2.length) := hmem
    exact List.of_mem_filter hmem2
  rw [hget1, hgetj]
  simpa [matchEq] using hpred

/-- C8 witness: the theorem at `arr1 = [3, 1, 2, 7]`, `arr2 = [2, 9, 1]`
(which exercises the clamping branch, since `9 > 7`) at position `0`. -/
theorem match_pairs_point_at_equal_elements_witness :
    (([3, 1, 2, 7] : List Int) ≠ [] ∧ ([2, 9, 1] : List Int) ≠ [] ∧
      0 < (matchArrays [3, 1, 2, 7] [2, 9, 1]).2.length) ∧
    ([3, 1, 2, 7] : List Int).getD
        ((matchArrays [3, 1, 2, 7] [2, 9, 1]).1.getD 0 0) 0 =
      ([2, 9, 1] : List Int).getD
        ((matchArrays [3, 1, 2, 7] [2, 9, 1]).2.getD 0 0) 0 :=
  ⟨⟨by decide, by decide, by decide⟩,
   match_pairs_point_at_equal_elements [3, 1, 2, 7] [2, 9, 1]
     (by decide) (by decide) 0 (by decide)⟩

/-- Helper: the `set(a) == set(b)` check holds exactly when the two string
collections have the same members. -/
theorem stringSetEq_iff (a b : List String) :
    stringSetEq a b = true ↔ (∀ s, s ∈ a ↔ s ∈ b) := by
  unfold stringSetEq
  rw [Bool.and_eq_true, List.all_eq_true, List.all_eq_true]
  constructor
  · rintro ⟨hab, hba⟩ s
    constructor
    · intro hs
      simpa using hab s hs
    · intro hs
      simpa using hba s hs
  · intro h
    constructor
    · intro s hs
      simpa using (h s).mp hs
    · intro s hs
      simpa using (h s).mpr hs

/-- Helper: the lowdust-ratio check holds exactly when the r-band footprint
is 1 at every index labelled `lowdust`. -/
theorem lowdustRatioCheck_iff (fpR : List ℚ) (labels : List String) :
    lowdustRatioCheck fpR labels = true ↔
      (∀ i, i < labels.length →
        labels.getD i "" = "lowdust" → fpR.getD i 0 = 1) := by
  unfold lowdustRatioCheck
  rw [List.all_eq_true]
  constructor
  · intro h i hi hl
    have := h i (List.mem_range.mpr hi)
    rw [if_pos hl] at this
    exact of_decide_eq_true this
  · intro h i hi
    by_cases hl : labels.getD i "" = "lowdust"
    · rw [if_pos hl]
      exact decide_eq_true (h i (List.mem_range.mp hi) hl)
    · rw [if_neg hl]

/-- C5: each of the three `TestSkyArea` test methods passes exactly when the
set of unique label values equals its expected label set and the r-band
footprint ratio is 1 at every pixel labelled `lowdust` — these two conditions
are all the tests assert about the maps. -/
theorem skyarea_tests_check_label_set_and_lowdust_ratio
    (footprints : String → List ℚ) (labels : List String) :
    (test_skyareagenerator footprints labels = true ↔
      ((∀ s, s ∈ labels ↔ s ∈ (["", "LMC_SMC", "bulge", "dusty_plane",
          "lowdust", "nes", "scp", "virgo"] : List String)) ∧
       (∀ i, i < labels.length → labels.getD i "" = "lowdust" →
         (footprints "r").getD i 0 = 1))) ∧
    (test_skyareageneratorgalplane footprints labels = true ↔
      ((∀ s, s ∈ labels ↔ s ∈ (["", "LMC_SMC", "bulgy", "dusty_plane",
          "lowdust", "nes", "scp", "virgo"] : List String)) ∧
       (∀ i, i < labels.length → labels.getD i "" = "lowdust" →
         (footprints "r").getD i 0 = 1))) ∧
    (test_euclidoverlapfootprint footprints labels = true ↔
      ((∀ s, s ∈ labels ↔ s ∈ (["", "LMC_SMC", "bulgy", "dusty_plane",
          "lowdust", "nes", "scp", "virgo", "euclid_overlap"] : List String)) ∧
       (∀ i, i < labels.length → labels.getD i "" = "lowdust" →
         (footprints "r").getD i 0 = 1))) := by
  refine ⟨?_, ?_, ?_⟩
  · unfold test_skyareagenerator
    rw [Bool.and_eq_true, stringSetEq_iff, lowdustRatioCheck_iff]
  · unfold test_skyareageneratorgalplane
    rw [Bool.and_eq_true, stringSetEq_iff, lowdustRatioCheck_iff]
  · unfold test_euclidoverlapfootprint
    rw [Bool.and_eq_true, stringSetEq_iff, lowdustRatioCheck_iff]
